import Mathlib

/-! Verification of the SpotifyMetadataServer specification against `app.py`.

The Flask handlers are embedded as pure Lean functions.  A network call's
outcome (the value returned by the upstream client, or the exception it
raised) is passed in as an argument; a handler that lets an exception escape
to Flask is modelled as returning `Except.error ()`, while a JSON response
is `Except.ok`.  Python dictionaries coming back from the upstream API are
modelled as structures whose every key is `Option`-valued: `none` stands for
a missing key (subscripting it raises `KeyError`, modelled as an error), and
a `null` value inside the `item` key gets its own `Option` layer (subscripting
`None` raises `TypeError`, likewise an error).  All of these exception kinds
are caught by the same `except` clauses in the source, so they are collapsed
into a single error token. -/

/-- An artist entry of the produced metadata JSON: `{"name": ..., "id": ...}`
(app.py line 181). -/
structure Artist where
  name : String
  id : String
deriving DecidableEq, Repr

/-- The `current` object of the `/metadata` JSON response
(app.py lines 183-194). -/
structure Snapshot where
  artist : List Artist
  song : String
  album : String
  songid : String
  albumid : String
  cover : String
  playing : Bool
deriving DecidableEq, Repr

/-- The canonical empty snapshot returned on every failure path
(app.py lines 145-157, 161-173, 200-212). -/
def emptySnapshot : Snapshot :=
  { artist := [], song := "", album := "", songid := "", albumid := "",
    cover := "", playing := false }

/-- The exception types caught around `sp.current_playback()`:
`SpotifyException`, `requests.exceptions.Timeout`,
`requests.exceptions.ConnectionError` (app.py lines 138-142). -/
inductive UpstreamError
  | spotifyException
  | timeout
  | connectionError
deriving DecidableEq, Repr

/-- A raw artist dictionary from the upstream payload; each field is a
dictionary key that may be missing. -/
structure RawArtist where
  name : Option String
  id : Option String
deriving DecidableEq, Repr

/-- A raw album image dictionary (`url`, `height` keys). -/
structure RawImage where
  url : Option String
  height : Option Int
deriving DecidableEq, Repr

/-- A raw album dictionary (`name`, `id`, `images` keys). -/
structure RawAlbum where
  name : Option String
  id : Option String
  images : Option (List RawImage)
deriving DecidableEq, Repr

/-- A raw track dictionary (`name`, `id`, `artists`, `album` keys). -/
structure RawTrack where
  name : Option String
  id : Option String
  artists : Option (List RawArtist)
  album : Option RawAlbum
deriving DecidableEq, Repr

/-- A raw device dictionary (`name` key). -/
structure RawDevice where
  name : Option String
deriving DecidableEq, Repr

/-- A raw (non-empty) playback dictionary returned by
`sp.current_playback()`.  The `item` field is doubly optional: the outer
layer is key presence, the inner layer is a JSON `null` value. -/
structure RawPlayback where
  device : Option RawDevice
  item : Option (Option RawTrack)
  is_playing : Option Bool
deriving DecidableEq, Repr

/-- Python truthiness of an optional string configuration value:
`None` and the empty string are falsy (`if device_name and ...`,
app.py lines 159, 226; `if not track_id`, line 231). -/
def strTruthy : Option String → Bool
  | none => false
  | some s => s != ""

/-- The list comprehension building the artists list (app.py lines 180-182):
each `artist["name"]` / `artist["id"]` subscript may raise `KeyError`. -/
def mapArtists : List RawArtist → Except Unit (List Artist)
  | [] => Except.ok []
  | a :: rest =>
    match a.name, a.id with
    | some n, some i =>
      match mapArtists rest with
      | Except.ok tl => Except.ok ({ name := n, id := i } :: tl)
      | Except.error e => Except.error e
    | _, _ => Except.error ()

/-- The cover selection (app.py lines 189-192):
`next((image["url"] for image in album["images"] if image["height"] == 300), "")`.
The generator is evaluated lazily, raising on a missing key of a visited
image; exhaustion yields the default `""`. -/
def coverNext : List RawImage → Except Unit String
  | [] => Except.ok ""
  | img :: rest =>
    match img.height with
    | none => Except.error ()
    | some h =>
      if h = 300 then
        match img.url with
        | some u => Except.ok u
        | none => Except.error ()
      else coverNext rest

/-- The mapping of a playback payload to the `current` snapshot
(app.py lines 176-194, the body of the second `try`).  `none` playback
models Python `None`: `playback["item"]` raises `TypeError`; a missing key
raises `KeyError`; an `item` of JSON `null` makes `track["album"]` raise
`TypeError`.  All of these are collapsed into `Except.error ()` since the
`except` clause on line 198 catches every one of them identically. -/
def buildCurrent : Option RawPlayback → Except Unit Snapshot
  | none => Except.error ()
  | some pb =>
    match pb.item with
    | none => Except.error ()
    | some none => Except.error ()
    | some (some track) =>
      match track.album with
      | none => Except.error ()
      | some album =>
        match track.artists with
        | none => Except.error ()
        | some rawArtists =>
          match mapArtists rawArtists with
          | Except.error e => Except.error e
          | Except.ok artists =>
            match track.name, album.name, track.id, album.id, album.images with
            | some song, some albumName, some songid, some albumid,
                some images =>
              match coverNext images with
              | Except.error e => Except.error e
              | Except.ok cover =>
                match pb.is_playing with
                | none => Except.error ()
                | some playing =>
                  Except.ok
                    ⟨artists, song, albumName, songid, albumid, cover, playing⟩
            | _, _, _, _, _ => Except.error ()

/-- The device-filter test `not playback or playback["device"]["name"] != device_name`
(app.py line 159).  It is evaluated outside any `try` block, so a missing
`device`/`name` key raises out of the handler (`Except.error`). -/
def deviceCheckFails (d : String) : Option RawPlayback → Except Unit Bool
  | none => Except.ok true
  | some pb =>
    match pb.device with
    | none => Except.error ()
    | some dev =>
      match dev.name with
      | none => Except.error ()
      | some n => Except.ok (n != d)

/-- The `/metadata` handler (app.py lines 132-212) as a function of the
configured `DEVICE_NAME` value and the outcome of `sp.current_playback()`.
`Except.ok s` is the JSON response `{"current": s}`; `Except.error ()` is an
exception escaping the handler (Flask then produces a 500 page). -/
def get_metadata (deviceName : Option String)
    (playbackResult : Except UpstreamError (Option RawPlayback)) :
    Except Unit Snapshot :=
  match playbackResult with
  | Except.error _ => Except.ok emptySnapshot
  | Except.ok playback =>
    if strTruthy deviceName then
      match deviceCheckFails (deviceName.getD "") playback with
      | Except.error e => Except.error e
      | Except.ok true => Except.ok emptySnapshot
      | Except.ok false =>
        match buildCurrent playback with
        | Except.ok s => Except.ok s
        | Except.error _ => Except.ok emptySnapshot
    else
      match buildCurrent playback with
      | Except.ok s => Except.ok s
      | Except.error _ => Except.ok emptySnapshot

/-- A well-formed artist payload (all keys present). -/
structure WfArtist where
  name : String
  id : String
deriving DecidableEq, Repr

/-- A well-formed image payload (all keys present). -/
structure WfImage where
  url : String
  height : Int
deriving DecidableEq, Repr

/-- A well-formed album payload (all keys present). -/
structure WfAlbum where
  name : String
  id : String
  images : List WfImage
deriving DecidableEq, Repr

/-- A well-formed track payload (all keys present). -/
structure WfTrack where
  name : String
  id : String
  artists : List WfArtist
  album : WfAlbum
deriving DecidableEq, Repr

/-- A well-formed playback payload: every key present and `item` an actual
track object. -/
structure WfPlayback where
  deviceName : String
  item : WfTrack
  is_playing : Bool
deriving DecidableEq, Repr

def WfArtist.toRaw (a : WfArtist) : RawArtist :=
  { name := some a.name, id := some a.id }

def WfImage.toRaw (i : WfImage) : RawImage :=
  { url := some i.url, height := some i.height }

def WfAlbum.toRaw (al : WfAlbum) : RawAlbum :=
  { name := some al.name, id := some al.id,
    images := some (al.images.map WfImage.toRaw) }

def WfTrack.toRaw (t : WfTrack) : RawTrack :=
  { name := some t.name, id := some t.id,
    artists := some (t.artists.map WfArtist.toRaw),
    album := some t.album.toRaw }

def WfPlayback.toRaw (p : WfPlayback) : RawPlayback :=
  { device := some { name := some p.deviceName },
    item := some (some p.item.toRaw),
    is_playing := some p.is_playing }

/-- Spec-side cover selection: the URL of the (first) image whose height
equals 300, falling back to the empty string. -/
def coverSpec (images : List WfImage) : String :=
  match images.find? (fun i => i.height = 300) with
  | some i => i.url
  | none => ""

/-- Spec-side mapping of a well-formed playback payload to the snapshot the
claim C3 describes. -/
def mapSpec (p : WfPlayback) : Snapshot :=
  { artist := p.item.artists.map (fun a => { name := a.name, id := a.id }),
    song := p.item.name, album := p.item.album.name,
    songid := p.item.id, albumid := p.item.album.id,
    cover := coverSpec p.item.album.images,
    playing := p.is_playing }

/-- The remote Spotify API calls a handler can issue. -/
inductive RemoteCall
  | currentPlayback
  | addToQueue (uri : String)
deriving DecidableEq, Repr

/-- The remote calls issued by the `/metadata` handler: line 137 invokes
`sp.current_playback()` unconditionally before anything else, and no other
remote call occurs anywhere in the handler (app.py lines 132-212); in
particular no cached state is consulted. -/
def get_metadata_calls (_ : Option String)
    (_ : Except UpstreamError (Option RawPlayback)) : List RemoteCall :=
  [RemoteCall.currentPlayback]

/-- The portion of the `/add` handler past the device filter (app.py lines
230-242): validate `trackid` (missing or empty is falsy, giving a 400),
then issue `sp.add_to_queue(uri=f"spotify:track:{track_id}")`, answering
200 on success and 400 on a caught upstream error. -/
def add_queue_after_filter (trackid : Option String)
    (enqueueResult : Except UpstreamError Unit) :
    List RemoteCall × Except Unit Nat :=
  match trackid with
  | none => ([RemoteCall.currentPlayback], Except.ok 400)
  | some tid =>
    if tid = "" then ([RemoteCall.currentPlayback], Except.ok 400)
    else
      match enqueueResult with
      | Except.ok _ =>
        ([RemoteCall.currentPlayback,
          RemoteCall.addToQueue (String.append "spotify:track:" tid)],
         Except.ok 200)
      | Except.error _ =>
        ([RemoteCall.currentPlayback,
          RemoteCall.addToQueue (String.append "spotify:track:" tid)],
         Except.ok 400)

/-- The `/add` handler (app.py lines 215-242) as a function of the
module-level `device_name` value, the outcome of `sp.current_playback()`,
the `trackid` query parameter, and the outcome `sp.add_to_queue` would have.
Returns the list of remote calls issued together with the HTTP status of the
JSON response, or `Except.error ()` when an exception escapes the handler
(the device-filter test on line 226 runs outside any `try`). -/
def add_queue (deviceName : Option String)
    (playbackResult : Except UpstreamError (Option RawPlayback))
    (trackid : Option String)
    (enqueueResult : Except UpstreamError Unit) :
    List RemoteCall × Except Unit Nat :=
  match playbackResult with
  | Except.error _ => ([RemoteCall.currentPlayback], Except.ok 500)
  | Except.ok playback =>
    if strTruthy deviceName then
      match deviceCheckFails (deviceName.getD "") playback with
      | Except.error e => ([RemoteCall.currentPlayback], Except.error e)
      | Except.ok true => ([RemoteCall.currentPlayback], Except.ok 400)
      | Except.ok false => add_queue_after_filter trackid enqueueResult
    else add_queue_after_filter trackid enqueueResult

/-- Whether a handler run issued an `add_to_queue` remote call. -/
def enqueueCalled (r : List RemoteCall × Except Unit Nat) : Bool :=
  r.1.any (fun c =>
    match c with
    | RemoteCall.addToQueue _ => true
    | _ => false)

/-- The HTTP status the client observes: an exception escaping a Flask
handler produces a 500 response. -/
def statusOf (r : Except Unit Nat) : Nat :=
  match r with
  | Except.ok n => n
  | Except.error _ => 500

/-- The cached OAuth token dictionary read by the refresher
(`sp.auth_manager.get_cached_token()`): the `refresh_token` and `expires_at`
keys may each be absent (app.py lines 68, 72). -/
structure TokenInfo where
  refresh_token : Option String
  expires_at : Option Int
deriving DecidableEq, Repr

/-- One iteration of the `token_refresher` loop body (app.py lines 62-90),
as a function of whether `sp.auth_manager` exists and is truthy, the cached
token (`none` models Python `None`), the current wall-clock second, and the
outcome a `refresh_access_token` call would have.  Returns whether the
refresh network call was made, paired with the cached token afterwards
(`refresh_access_token` overwrites the token cache on success; a failure is
caught on line 83 and leaves it untouched). -/
def token_refresher_iteration (hasAuthManager : Bool)
    (tokenInfo : Option TokenInfo) (now : Int)
    (refreshResult : Except Unit TokenInfo) : Bool × Option TokenInfo :=
  if hasAuthManager then
    match tokenInfo with
    | none => (false, tokenInfo)
    | some ti =>
      match ti.refresh_token with
      | none => (false, tokenInfo)
      | some _ =>
        match ti.expires_at with
        | none => (false, tokenInfo)
        | some expires_at =>
          if expires_at - now < 600 then
            match refreshResult with
            | Except.ok newTi => (true, some newTi)
            | Except.error _ => (true, tokenInfo)
          else (false, tokenInfo)
  else (false, tokenInfo)

/-- The ambient inputs of one refresher iteration: the stop flag as observed
at the top of the `while` loop, the wall clock, and the outcome a refresh
call would have. -/
structure RefresherEnv where
  stop : Bool
  now : Int
  refreshResult : Except Unit TokenInfo
deriving Repr

/-- The `token_refresher` loop (app.py lines 60-92) run over a finite
schedule of per-iteration environments: it exits when the stop flag is
observed, and otherwise runs the (total, exception-swallowing) body and
continues.  Returns the final cached token and the number of loop bodies
executed. -/
def token_refresher : List RefresherEnv → Option TokenInfo →
    Option TokenInfo × Nat
  | [], cred => (cred, 0)
  | env :: rest, cred =>
    if env.stop then (cred, 0)
    else
      let step := token_refresher_iteration true cred env.now env.refreshResult
      let tail := token_refresher rest step.2
      (tail.1, tail.2 + 1)

/-- The phases of the `token_refresher` loop as a one-second-granularity
state machine: `atCheck` is the `while not stop_event.is_set()` test,
`sleeping r` is being `r` seconds into `time.sleep(300)` with `r` seconds
left (app.py lines 61, 92). -/
inductive RefresherPhase
  | atCheck
  | sleeping (remaining : Nat)
deriving DecidableEq, Repr

/-- One second of the refresher loop under a given stop-flag value: the
check observes the flag and either exits (`none`) or runs the body and
enters the 300-second sleep; `time.sleep` does not observe the stop flag,
so a sleeping phase always just counts down (app.py line 92 uses plain
`time.sleep(300)`, not `stop_event.wait(300)`). -/
def refresher_step (stopSet : Bool) : RefresherPhase → Option RefresherPhase
  | RefresherPhase.atCheck =>
    if stopSet then none else some (RefresherPhase.sleeping 300)
  | RefresherPhase.sleeping 0 => some RefresherPhase.atCheck
  | RefresherPhase.sleeping (r + 1) => some (RefresherPhase.sleeping r)

/-- Number of `refresher_step` steps until the loop exits, under a constant
stop-flag value, with fuel; `none` when it does not exit within the fuel. -/
def stepsToExit (stopSet : Bool) : Nat → RefresherPhase → Option Nat
  | 0, _ => none
  | fuel + 1, ph =>
    match refresher_step stopSet ph with
    | none => some 0
    | some next =>
      match stepsToExit stopSet fuel next with
      | none => none
      | some n => some (n + 1)

/-- Modelled from the spec: the repository's source contains no State
Poller (no polling loop, consecutive-failure counter, or backoff appears in
`app.py`); the delay policy is taken from spec section 4.2 step 4: "while
the consecutive-failure counter exceeds a threshold (5), sleep for
`min(cap, 2^(counter-threshold))` seconds ... where `cap` is 60s; below
threshold, sleep the fixed poll interval". -/
def pollerDelay (pollInterval : Nat) (counter : Nat) : Nat :=
  if counter > 5 then min 60 (2 ^ (counter - 5)) else pollInterval

/-- Modelled from the spec: the repository's source contains no State Cache
(the Flask-Caching object created on app.py line 118 is never used); the
shape is taken from spec section 3: `CachedState: {snapshot, last_update:
timestamp-or-absent}`. -/
structure CachedState where
  snapshot : Snapshot
  last_update : Option Int
deriving DecidableEq, Repr

/-- Modelled from the spec, section 4.1: `is_stale(max_age)` is "true if no
update has ever occurred, or `now - last_update > max_age`". -/
def CachedState.is_stale (cs : CachedState) (now : Int) (max_age : Int) :
    Bool :=
  match cs.last_update with
  | none => true
  | some t => now - t > max_age

/-- Modelled from the spec, section 3: "a freshly constructed CachedState
has no snapshot writes applied (starts with the empty snapshot and no
timestamp)". -/
def freshCachedState : CachedState :=
  { snapshot := emptySnapshot, last_update := none }

deriving instance DecidableEq for Except

/-- A concrete well-formed playback payload reporting device "Office". -/
def officePlayback : WfPlayback :=
  { deviceName := "Office",
    item := { name := "S", id := "sid",
              artists := [{ name := "A", id := "1" }],
              album := { name := "Al", id := "alid",
                         images := [{ url := "u1", height := 300 }] } },
    is_playing := true }

/-- A concrete well-formed playback payload whose album image list has no
entry of height 300; its first image has URL "u1". -/
def no300Playback : WfPlayback :=
  { deviceName := "Kitchen",
    item := { name := "S2", id := "sid2",
              artists := [{ name := "B", id := "2" }],
              album := { name := "Al2", id := "alid2",
                         images := [{ url := "u1", height := 640 },
                                    { url := "u2", height := 64 }] } },
    is_playing := true }

/-- A concrete refresher iteration environment: stop unset, refresh failing. -/
def envFailingRefresh : RefresherEnv :=
  { stop := false, now := 0, refreshResult := Except.error () }

/-- A concrete cached token holding a refresh token and expiring at second
100. -/
def tokenSoonExpiring : TokenInfo :=
  { refresh_token := some "rt", expires_at := some 100 }

theorem mapArtists_wf (l : List WfArtist) :
    mapArtists (l.map WfArtist.toRaw) =
      Except.ok (l.map (fun a => ({ name := a.name, id := a.id } : Artist))) := by
  induction l with
  | nil => rfl
  | cons a rest ih => simp [mapArtists, WfArtist.toRaw, ih]

theorem coverNext_wf (l : List WfImage) :
    coverNext (l.map WfImage.toRaw) = Except.ok (coverSpec l) := by
  induction l with
  | nil => rfl
  | cons i rest ih =>
    by_cases h : i.height = 300
    · simp [coverNext, WfImage.toRaw, coverSpec, List.find?, h]
    · simp [coverNext, WfImage.toRaw, coverSpec, List.find?, h] at ih ⊢
      exact ih

theorem buildCurrent_wf (p : WfPlayback) :
    buildCurrent (some p.toRaw) = Except.ok (mapSpec p) := by
  simp [buildCurrent, WfPlayback.toRaw, WfTrack.toRaw, WfAlbum.toRaw,
    mapArtists_wf, coverNext_wf, mapSpec]

theorem deviceCheckFails_wf (d : String) (p : WfPlayback) :
    deviceCheckFails d (some p.toRaw) = Except.ok (p.deviceName != d) := rfl

theorem token_refresher_iteration_error (hasAuthManager : Bool)
    (ti : Option TokenInfo) (now : Int) :
    (token_refresher_iteration hasAuthManager ti now (Except.error ())).2 =
      ti := by
  cases hasAuthManager with
  | false => rfl
  | true =>
    cases ti with
    | none => rfl
    | some t =>
      cases hrt : t.refresh_token with
      | none => simp [token_refresher_iteration, hrt]
      | some rt =>
        cases hea : t.expires_at with
        | none => simp [token_refresher_iteration, hrt, hea]
        | some ea =>
          by_cases hlt : ea - now < 600 <;>
            simp [token_refresher_iteration, hrt, hea, hlt]

/-- Claim C1 (confirmed): for every upstream failure of the
`sp.current_playback()` call — a caught `SpotifyException`, timeout or
connection error — and for every absent or malformed payload on which the
mapping raises (control having reached the mapping `try` block), the
`/metadata` handler answers with the canonical empty snapshot as a normal
JSON response; no exception escapes to its caller on these paths. -/
theorem C1_metadata_empty_on_failure :
    (∀ (d : Option String) (e : UpstreamError),
      get_metadata d (Except.error e) = Except.ok emptySnapshot)
    ∧ (∀ (d : Option String) (pb : Option RawPlayback),
        (strTruthy d = true →
          deviceCheckFails (d.getD "") pb = Except.ok false) →
        buildCurrent pb = Except.error () →
        get_metadata d (Except.ok pb) = Except.ok emptySnapshot) := by
  constructor
  · intro d e
    rfl
  · intro d pb hreach herr
    by_cases hd : strTruthy d = true
    · simp [get_metadata, hd, hreach hd, herr]
    · simp [get_metadata, hd, herr]

/-- Witness for C1 at concrete inputs: a `None` playback payload reaching
the mapping with no device filter, and a timeout with a configured
filter. -/
theorem C1_metadata_empty_on_failure_witness :
    get_metadata none (Except.ok none) = Except.ok emptySnapshot ∧
    get_metadata (some "Kitchen") (Except.error UpstreamError.timeout) =
      Except.ok emptySnapshot :=
  ⟨C1_metadata_empty_on_failure.2 none none (by decide) (by decide),
   C1_metadata_empty_on_failure.1 (some "Kitchen") UpstreamError.timeout⟩

/-- Counterexample to claim C2 as stated: with the configured device filter
string `""` (a configurable value, which Python treats as falsy) and a
successful well-formed playback whose reported device "Office" differs from
it, the handler does not yield the canonical empty snapshot — the filter is
skipped entirely. -/
theorem C2_counterexample :
    get_metadata (some "") (Except.ok (some officePlayback.toRaw)) ≠
      Except.ok emptySnapshot := by decide

/-- Claim C2 (amended): for every configured non-empty device filter string
D and every successful playback result: an absent result, or a well-formed
result whose reported device differs from D, yields the canonical empty
snapshot; a well-formed result whose reported device equals D yields the
mapped, non-coerced snapshot. -/
theorem C2_device_filter :
    (∀ d : String, d ≠ "" →
      get_metadata (some d) (Except.ok none) = Except.ok emptySnapshot)
    ∧ (∀ (d : String) (p : WfPlayback), d ≠ "" → p.deviceName ≠ d →
        get_metadata (some d) (Except.ok (some p.toRaw)) =
          Except.ok emptySnapshot)
    ∧ (∀ (d : String) (p : WfPlayback), d ≠ "" → p.deviceName = d →
        get_metadata (some d) (Except.ok (some p.toRaw)) =
          Except.ok (mapSpec p)) := by
  refine ⟨?_, ?_, ?_⟩
  · intro d hd
    simp [get_metadata, strTruthy, hd, deviceCheckFails]
  · intro d p hd hne
    have hb : (p.deviceName != d) = true := by simp [hne]
    simp [get_metadata, strTruthy, hd, deviceCheckFails_wf, hb]
  · intro d p hd heq
    have hb : (p.deviceName != d) = false := by simp [heq]
    simp [get_metadata, strTruthy, hd, deviceCheckFails_wf, hb,
      buildCurrent_wf]

/-- Witness for C2 at concrete inputs: filter "Kitchen" with an absent
result, filter "Kitchen" against the "Office" payload, and filter "Office"
against the same payload. -/
theorem C2_device_filter_witness :
    get_metadata (some "Kitchen") (Except.ok none) =
      Except.ok emptySnapshot ∧
    get_metadata (some "Kitchen") (Except.ok (some officePlayback.toRaw)) =
      Except.ok emptySnapshot ∧
    get_metadata (some "Office") (Except.ok (some officePlayback.toRaw)) =
      Except.ok (mapSpec officePlayback) :=
  ⟨C2_device_filter.1 "Kitchen" (by decide),
   C2_device_filter.2.1 "Kitchen" officePlayback (by decide) (by decide),
   C2_device_filter.2.2 "Office" officePlayback (by decide) (by decide)⟩

/-- Claim C3 (confirmed): for every well-formed playback payload, the
mapping produces exactly the snapshot with the ordered `{name, id}` artist
list, the track/album names and ids, `playing` equal to the payload's
`is_playing` flag, and as cover the URL of the first image of height 300 —
the empty string when no image of height 300 exists (`coverSpec`). -/
theorem C3_mapping (p : WfPlayback) :
    buildCurrent (some p.toRaw) =
      Except.ok
        { artist := p.item.artists.map
            (fun a => { name := a.name, id := a.id }),
          song := p.item.name,
          album := p.item.album.name,
          songid := p.item.id,
          albumid := p.item.album.id,
          cover := coverSpec p.item.album.images,
          playing := p.is_playing } :=
  buildCurrent_wf p

/-- Counterexample to claim C4 as stated: the `/metadata` handler's remote
call trace at a concrete request is not empty — it performs a network call
on its path. -/
theorem C4_counterexample :
    get_metadata_calls none (Except.ok none) ≠ [] := by decide

/-- Claim C4 (amended): every request to the `/metadata` handler performs
exactly one upstream network call, `sp.current_playback()`; there is no
locally cached state on the path (the Flask-Caching object is never
used). -/
theorem C4_always_calls_upstream (d : Option String)
    (r : Except UpstreamError (Option RawPlayback)) :
    get_metadata_calls d r = [RemoteCall.currentPlayback] := rfl

/-- Claim C5 (confirmed): in the `token_refresher` loop, the network
refresh call is made only when the cached token carries a `refresh_token`
and an `expires_at` fewer than 600 seconds away; a failed refresh leaves
the cached credential unchanged; and the loop runs every scheduled
iteration until the stop flag is observed — in particular a schedule of
nothing but refresh failures is processed in full with the credential
intact at the end. -/
theorem C5_refresher_guard_and_resilience :
    (∀ (h : Bool) (ti : Option TokenInfo) (now : Int)
        (r : Except Unit TokenInfo),
      (token_refresher_iteration h ti now r).1 = true →
      ∃ t rt ea, ti = some t ∧ t.refresh_token = some rt ∧
        t.expires_at = some ea ∧ ea - now < 600)
    ∧ (∀ (h : Bool) (ti : Option TokenInfo) (now : Int),
        (token_refresher_iteration h ti now (Except.error ())).2 = ti)
    ∧ (∀ (envs : List RefresherEnv) (cred : Option TokenInfo),
        (∀ e ∈ envs, e.stop = false) →
        (token_refresher envs cred).2 = envs.length)
    ∧ (∀ (envs : List RefresherEnv) (cred : Option TokenInfo),
        (∀ e ∈ envs, e.refreshResult = Except.error ()) →
        (token_refresher envs cred).1 = cred) := by
  refine ⟨?_, ?_, ?_, ?_⟩
  · intro h ti now r hcall
    cases h with
    | false => exact absurd hcall (by simp [token_refresher_iteration])
    | true =>
      cases ti with
      | none => exact absurd hcall (by simp [token_refresher_iteration])
      | some t =>
        cases hrt : t.refresh_token with
        | none =>
          exact absurd hcall (by simp [token_refresher_iteration, hrt])
        | some rt =>
          cases hea : t.expires_at with
          | none =>
            exact absurd hcall (by simp [token_refresher_iteration, hrt, hea])
          | some ea =>
            by_cases hlt : ea - now < 600
            · exact ⟨t, rt, ea, rfl, hrt, hea, hlt⟩
            · exact absurd hcall
                (by simp [token_refresher_iteration, hrt, hea, hlt])
  · intro h ti now
    exact token_refresher_iteration_error h ti now
  · intro envs
    induction envs with
    | nil => intro cred _; rfl
    | cons e rest ih =>
      intro cred hstop
      have he : e.stop = false := hstop e (by simp)
      simp [token_refresher, he,
        ih _ (fun x hx => hstop x (List.mem_cons_of_mem e hx))]
  · intro envs
    induction envs with
    | nil => intro cred _; rfl
    | cons e rest ih =>
      intro cred herr
      have he : e.refreshResult = Except.error () := herr e (by simp)
      simp [token_refresher, token_refresher_iteration_error, he,
        ih _ (fun x hx => herr x (List.mem_cons_of_mem e hx))]
      split
      · rfl
      · simp [he, token_refresher_iteration_error,
          ih _ (fun x hx => herr x (List.mem_cons_of_mem e hx))]

/-- Witness for C5 at concrete inputs: a token with a refresh token
expiring 100 seconds from now triggers the refresh guard; a failing
refresh leaves it in place; a one-iteration schedule with the stop flag
unset and a failing refresh is run in full and keeps the credential. -/
theorem C5_refresher_witness :
    (∃ t rt ea, some tokenSoonExpiring = some t ∧
      t.refresh_token = some rt ∧ t.expires_at = some ea ∧
      ea - (0 : Int) < 600) ∧
    (token_refresher_iteration true (some tokenSoonExpiring) 0
      (Except.error ())).2 = some tokenSoonExpiring ∧
    (token_refresher [envFailingRefresh] (some tokenSoonExpiring)).2 =
      [envFailingRefresh].length ∧
    (token_refresher [envFailingRefresh] (some tokenSoonExpiring)).1 =
      some tokenSoonExpiring :=
  ⟨C5_refresher_guard_and_resilience.1 true (some tokenSoonExpiring) 0
      (Except.error ()) (by decide),
   C5_refresher_guard_and_resilience.2.1 true (some tokenSoonExpiring) 0,
   C5_refresher_guard_and_resilience.2.2.1 [envFailingRefresh]
      (some tokenSoonExpiring)
      (by intro e he; rw [List.mem_singleton] at he; rw [he]; rfl),
   C5_refresher_guard_and_resilience.2.2.2 [envFailingRefresh]
      (some tokenSoonExpiring)
      (by intro e he; rw [List.mem_singleton] at he; rw [he]; rfl)⟩

/-- Claim C6 (confirmed against the spec model): for every
consecutive-failure counter value n, the poller delay is
`min 60 (2 ^ (n - 5))` when n exceeds the threshold 5 — in particular 2
seconds at n = 6 and never more than 60 seconds — and the fixed poll
interval when n is at or below 5. -/
theorem C6_backoff_policy (i n : Nat) :
    (n > 5 → pollerDelay i n = min 60 (2 ^ (n - 5)))
    ∧ (n ≤ 5 → pollerDelay i n = i)
    ∧ pollerDelay i 6 = 2
    ∧ (n > 5 → pollerDelay i n ≤ 60) := by
  refine ⟨?_, ?_, ?_, ?_⟩
  · intro hgt
    simp [pollerDelay, hgt]
  · intro hle
    simp [pollerDelay, Nat.not_lt.mpr hle]
  · simp [pollerDelay]
  · intro hgt
    simp [pollerDelay, hgt]

/-- Witness for C6 at concrete counter values 7, 3, 6 and 10 with poll
interval 1. -/
theorem C6_backoff_policy_witness :
    pollerDelay 1 7 = min 60 (2 ^ (7 - 5)) ∧ pollerDelay 1 3 = 1 ∧
    pollerDelay 1 6 = 2 ∧ pollerDelay 1 10 ≤ 60 :=
  ⟨(C6_backoff_policy 1 7).1 (by decide),
   (C6_backoff_policy 1 3).2.1 (by decide),
   (C6_backoff_policy 1 6).2.2.1,
   (C6_backoff_policy 1 10).2.2.2 (by decide)⟩

/-- Claim C7 (confirmed against the spec model): `is_stale(max_age)` holds
exactly when no update has ever occurred or `now - last_update > max_age`,
and a freshly constructed cache reports stale for every `max_age`. -/
theorem C7_is_stale :
    (∀ (cs : CachedState) (now max_age : Int),
      cs.is_stale now max_age = true ↔
        cs.last_update = none ∨
          ∃ t, cs.last_update = some t ∧ now - t > max_age)
    ∧ (∀ now max_age : Int,
        freshCachedState.is_stale now max_age = true) := by
  constructor
  · intro cs now max_age
    cases hu : cs.last_update with
    | none => simp [CachedState.is_stale, hu]
    | some t => simp [CachedState.is_stale, hu]
  · intro now max_age
    rfl

theorem afterFilter_enqueueCalled (tid : Option String)
    (er : Except UpstreamError Unit) :
    enqueueCalled (add_queue_after_filter tid er) = strTruthy tid := by
  cases tid with
  | none => rfl
  | some t =>
    by_cases ht : t = ""
    · simp [add_queue_after_filter, ht, enqueueCalled, strTruthy]
    · cases er <;>
        simp [add_queue_after_filter, ht, enqueueCalled, strTruthy]

theorem afterFilter_status_falsy (tid : Option String)
    (er : Except UpstreamError Unit) (h : strTruthy tid = false) :
    (add_queue_after_filter tid er).2 = Except.ok 400 := by
  cases tid with
  | none => rfl
  | some t =>
    have ht : t = "" := by simpa [strTruthy] using h
    simp [add_queue_after_filter, ht]

/-- Counterexample to claim C8 as stated: for a well-formed payload whose
album images ([u1 at height 640, u2 at height 64]) contain no entry of
height 300, the produced cover is the empty string, not the URL "u1" of the
first available image. -/
theorem C8_counterexample :
    buildCurrent (some no300Playback.toRaw) =
      Except.ok (mapSpec no300Playback) ∧
    (mapSpec no300Playback).cover = "" ∧
    (mapSpec no300Playback).cover ≠ "u1" ∧
    (no300Playback.item.album.images.map WfImage.url).head? = some "u1" := by
  refine ⟨by decide, by decide, by decide, by decide⟩

/-- Claim C8 (amended): for every well-formed playback payload whose album
image list contains no image of height 300, the cover URL of the resulting
snapshot is the empty string. -/
theorem C8_cover_fallback (p : WfPlayback)
    (h : ∀ i ∈ p.item.album.images, i.height ≠ 300) :
    buildCurrent (some p.toRaw) = Except.ok (mapSpec p) ∧
    (mapSpec p).cover = "" := by
  refine ⟨buildCurrent_wf p, ?_⟩
  have hfind : p.item.album.images.find? (fun i => i.height = 300) = none := by
    rw [List.find?_eq_none]
    intro x hx
    simp [h x hx]
  simp [mapSpec, coverSpec, hfind]

/-- Witness for C8 at the concrete payload with images of heights 640 and
64 only. -/
theorem C8_cover_fallback_witness :
    buildCurrent (some no300Playback.toRaw) =
      Except.ok (mapSpec no300Playback) ∧
    (mapSpec no300Playback).cover = "" :=
  C8_cover_fallback no300Playback (by decide)

set_option maxRecDepth 4000 in
/-- Counterexample to claim C9 as stated: with the stop signal set
throughout, the refresher loop caught at the start of its 300-second
`time.sleep` takes 301 one-second steps to exit — a full sleep period plus
the check — not at most one sleep increment. -/
theorem C9_counterexample :
    stepsToExit true 302 (RefresherPhase.sleeping 300) = some 301 ∧
    ¬ (301 : Nat) ≤ 1 := by
  constructor
  · decide
  · decide

/-- Claim C9 (amended): the refresher loop observes the stop signal only at
the top-of-loop check, never during its sleep: with the stop signal set, a
loop `r` seconds from the end of its sleep takes exactly `r + 1` further
steps to exit (the rest of the sleep plus one check, up to a full 300-second
period), a loop at the check exits immediately, and a sleeping step always
proceeds regardless of the stop signal. -/
theorem C9_stop_latency :
    (∀ r : Nat, stepsToExit true (r + 2) (RefresherPhase.sleeping r) =
      some (r + 1))
    ∧ stepsToExit true 1 RefresherPhase.atCheck = some 0
    ∧ (∀ r : Nat, refresher_step true (RefresherPhase.sleeping (r + 1)) =
        some (RefresherPhase.sleeping r)) := by
  refine ⟨?_, rfl, fun r => rfl⟩
  intro r
  induction r with
  | zero => rfl
  | succ k ih =>
    show stepsToExit true (k + 2 + 1) (RefresherPhase.sleeping (k + 1)) =
      some (k + 1 + 1)
    rw [stepsToExit]
    have hstep : refresher_step true (RefresherPhase.sleeping (k + 1)) =
        some (RefresherPhase.sleeping k) := rfl
    rw [hstep]
    show (match stepsToExit true (k + 2) (RefresherPhase.sleeping k) with
      | none => none
      | some n => some (n + 1)) = some (k + 1 + 1)
    rw [ih]

/-- Counterexample to claim C10 as stated: with the configured device
filter string `""` (falsy in Python, so the filter test is skipped), a
playback reporting device "Office" — which differs from the filter — and a
`trackid`, the `/add` handler still performs the upstream enqueue call and
answers 200. -/
theorem C10_counterexample :
    enqueueCalled (add_queue (some "") (Except.ok (some officePlayback.toRaw))
      (some "t") (Except.ok ())) = true ∧
    (add_queue (some "") (Except.ok (some officePlayback.toRaw)) (some "t")
      (Except.ok ())).2 = Except.ok 200 ∧
    officePlayback.deviceName ≠ "" := by
  refine ⟨by decide, by decide, by decide⟩

/-- Claim C10 (amended): the `/add` handler performs the upstream enqueue
call only when a non-empty `trackid` is present and, when a non-empty
device filter is configured, the playback result is present with its
device name equal to the filter; in every case where the enqueue call is
not performed the response status is 400 or 500 (an escaped exception
yields Flask's 500). -/
theorem C10_enqueue_guard :
    ∀ (d : Option String) (pr : Except UpstreamError (Option RawPlayback))
      (tid : Option String) (er : Except UpstreamError Unit),
      (enqueueCalled (add_queue d pr tid er) = true →
        strTruthy tid = true ∧
        (strTruthy d = true →
          ∃ pb dev, pr = Except.ok (some pb) ∧ pb.device = some dev ∧
            dev.name = some (d.getD "")))
      ∧ (enqueueCalled (add_queue d pr tid er) = false →
          statusOf (add_queue d pr tid er).2 = 400 ∨
          statusOf (add_queue d pr tid er).2 = 500) := by
  intro d pr tid er
  cases pr with
  | error e =>
    constructor
    · intro hcall
      exact absurd hcall (by simp [add_queue, enqueueCalled])
    · intro _
      exact Or.inr rfl
  | ok playback =>
    by_cases hd : strTruthy d = true
    · cases hchk : deviceCheckFails (d.getD "") playback with
      | error e =>
        constructor
        · intro hcall
          exact absurd hcall (by simp [add_queue, hd, hchk, enqueueCalled])
        · intro _
          exact Or.inr (by simp [add_queue, hd, hchk, statusOf])
      | ok b =>
        cases b with
        | true =>
          constructor
          · intro hcall
            exact absurd hcall (by simp [add_queue, hd, hchk, enqueueCalled])
          · intro _
            exact Or.inl (by simp [add_queue, hd, hchk, statusOf])
        | false =>
          have hq : add_queue d (Except.ok playback) tid er =
              add_queue_after_filter tid er := by
            simp [add_queue, hd, hchk]
          constructor
          · intro hcall
            rw [hq, afterFilter_enqueueCalled] at hcall
            refine ⟨hcall, fun _ => ?_⟩
            cases playback with
            | none => exact absurd hchk (by simp [deviceCheckFails])
            | some pb =>
              cases hdev : pb.device with
              | none => simp [deviceCheckFails, hdev] at hchk
              | some dev =>
                cases hname : dev.name with
                | none => simp [deviceCheckFails, hdev, hname] at hchk
                | some n =>
                  simp [deviceCheckFails, hdev, hname] at hchk
                  exact ⟨pb, dev, rfl, hdev, by rw [hname, hchk]⟩
          · intro hnot
            rw [hq] at hnot ⊢
            rw [afterFilter_enqueueCalled] at hnot
            exact Or.inl
              (by simp [afterFilter_status_falsy tid er hnot, statusOf])
    · have hq : add_queue d (Except.ok playback) tid er =
          add_queue_after_filter tid er := by
        simp [add_queue, hd]
      constructor
      · intro hcall
        rw [hq, afterFilter_enqueueCalled] at hcall
        exact ⟨hcall, fun hdt => absurd hdt hd⟩
      · intro hnot
        rw [hq] at hnot ⊢
        rw [afterFilter_enqueueCalled] at hnot
        exact Or.inl
          (by simp [afterFilter_status_falsy tid er hnot, statusOf])

/-- Witness for C10 at concrete inputs: with filter "Office", the matching
"Office" payload, `trackid` "t" and a succeeding enqueue, the enqueue call
is performed and the guard's conclusion holds; with a missing `trackid` the
handler answers 400 or 500 without enqueueing. -/
theorem C10_enqueue_guard_witness :
    (strTruthy (some "t") = true ∧
      (strTruthy (some "Office") = true →
        ∃ pb dev,
          Except.ok (some officePlayback.toRaw) =
            (Except.ok (some pb) : Except UpstreamError (Option RawPlayback)) ∧
          pb.device = some dev ∧
          dev.name = some ((some "Office").getD ""))) ∧
    (statusOf (add_queue (some "Office")
        (Except.ok (some officePlayback.toRaw)) none (Except.ok ())).2 = 400 ∨
      statusOf (add_queue (some "Office")
        (Except.ok (some officePlayback.toRaw)) none (Except.ok ())).2 = 500) :=
  ⟨(C10_enqueue_guard (some "Office") (Except.ok (some officePlayback.toRaw))
      (some "t") (Except.ok ())).1 (by decide),
   (C10_enqueue_guard (some "Office") (Except.ok (some officePlayback.toRaw))
      none (Except.ok ())).2 (by decide)⟩
